import Mathlib

/-!
Shallow embedding of the BEFAST stroke-assessment core services:

* `src/services/aiAdvisor.ts` — local risk scoring (`calculateLocally`);
* the questionnaire page's UI scoring function (`calculateScore`);
* `src/services/simpleOfflineSpeechAnalysis.ts` — audio feature extraction
  and the threshold-based speech-pattern classifier;
* `src/services/realTimeVoiceAnalysis.ts` — the per-tick real-time
  classifier, the exponential smoothing of results, and the start/stop
  lifecycle of the analysis loop.

Modelling conventions: JavaScript numbers are modelled by `ℚ` where the
source only performs field arithmetic and comparisons, and by `ℝ` where a
square root or a cosine occurs (`Math.sqrt`, `Math.cos`).  The two places
where the source can divide zero by zero (producing `NaN`) are modelled
with `Option`: `none` stands for `NaN`; every JavaScript comparison
against `NaN` is `false`, which the `Option` helpers reproduce.
`Math.random()` is modelled by an explicit `rand : ℕ` argument and the
`NODE_ENV === development` check by an explicit `dev : Bool` argument.
`timestamp : Date.now()` fields and the human-readable `factors` strings
(which interpolate `toFixed` output) are omitted from result records.
-/

/-! ## Data model (src/types, consumed by aiAdvisor.ts and the UI page) -/

/-- Tri-state BEFAST questionnaire answers: the five question keys of the
questionnaire page (`balance`, `eyes`, `face`, `arms`, `speech`), each
`boolean | null` in the source (`none` = not yet answered). -/
structure BEFASTAnswers where
  balance : Option Bool
  eyes : Option Bool
  face : Option Bool
  arms : Option Bool
  speech : Option Bool
deriving DecidableEq

/-- `Object.values(befastAnswers)` in declaration order. -/
def BEFASTAnswers.values (a : BEFASTAnswers) : List (Option Bool) :=
  [a.balance, a.eyes, a.face, a.arms, a.speech]

/-- Face analysis result as consumed by the risk-scoring code
(`asymmetry` is a percentage). -/
structure FaceAnalysisResult where
  asymmetry : ℚ
  confidence : ℚ
deriving DecidableEq

/-- Speech analysis result as consumed by the risk-scoring code. -/
structure SpeechAnalysisResult where
  confidence : ℚ
  isSlurred : Bool
deriving DecidableEq

/-- Risk level enumeration used by both scoring functions. -/
inductive RiskLevel where
  | LOW
  | MEDIUM
  | HIGH
deriving DecidableEq

/-- The `AnalysisData` record passed to `calculateLocally`. -/
structure AnalysisData where
  befastAnswers : BEFASTAnswers
  faceAnalysis : Option FaceAnalysisResult
  speechAnalysis : Option SpeechAnalysisResult
deriving DecidableEq

/-- `AIRiskScore` minus the `factors` string list and the `timestamp`. -/
structure AIRiskScore where
  score : ℚ
  level : RiskLevel
deriving DecidableEq

/-! ## Risk Scoring Aggregator (aiAdvisor.ts, `calculateLocally`) -/

/-- `befastAnswers.filter(answer => answer === true).length`. -/
def positiveBEFAST (a : BEFASTAnswers) : ℕ :=
  (a.values.filter (fun v => v = some true)).length

/-- The running `score` accumulated by `calculateLocally` before the final
`Math.min(score, 100)` clamp: BEFAST contribution, then face-analysis
tier, then speech bonuses, exactly as in aiAdvisor.ts lines 109–143. -/
def rawLocalScore (d : AnalysisData) : ℚ :=
  (if 0 < positiveBEFAST d.befastAnswers then
    (positiveBEFAST d.befastAnswers : ℚ) * 20 else 0)
  + (match d.faceAnalysis with
     | none => 0
     | some fa =>
       if fa.asymmetry > 30 then 30
       else if fa.asymmetry > 15 then 15
       else 0)
  + (match d.speechAnalysis with
     | none => 0
     | some sp =>
       (if sp.isSlurred then 25 else 0)
       + (if sp.confidence < 0.7 then 10 else 0))

/-- `calculateLocally` of aiAdvisor.ts: the risk level is decided on the
unclamped running score, the returned score is `Math.min(score, 100)`. -/
def calculateLocally (d : AnalysisData) : AIRiskScore :=
  let score := rawLocalScore d
  { score := min score 100
    level :=
      if score ≥ 70 then .HIGH
      else if score ≥ 40 then .MEDIUM
      else .LOW }

/-! ## UI scoring variant (`calculateScore` on the questionnaire page) -/

/-- Result record of the UI `calculateScore` (the `factors` strings are
omitted as above; `color` is the Tailwind class string it returns). -/
structure UIScore where
  score : ℚ
  level : RiskLevel
  color : String
deriving DecidableEq

/-- The questionnaire page's `calculateScore`: same BEFAST and speech
contributions as `calculateLocally`, but asymmetry tiers `>15 ⇒ +25`,
`>10 ⇒ +15`, no clamp, and level thresholds `≥50 ⇒ HIGH`, `≥25 ⇒ MEDIUM`. -/
def calculateScore (befastAnswers : BEFASTAnswers)
    (face : Option FaceAnalysisResult)
    (speech : Option SpeechAnalysisResult) : UIScore :=
  let score : ℚ :=
    (if 0 < positiveBEFAST befastAnswers then
      (positiveBEFAST befastAnswers : ℚ) * 20 else 0)
    + (match face with
       | none => 0
       | some fa =>
         if fa.asymmetry > 15 then 25
         else if fa.asymmetry > 10 then 15
         else 0)
    + (match speech with
       | none => 0
       | some sp =>
         (if sp.isSlurred then 25 else 0)
         + (if sp.confidence < 0.7 then 10 else 0))
  if score ≥ 50 then { score := score, level := .HIGH, color := "text-red-600" }
  else if score ≥ 25 then { score := score, level := .MEDIUM, color := "text-yellow-600" }
  else { score := score, level := .LOW, color := "text-green-600" }

/-- The five questionnaire keys. -/
inductive BEFASTKey where
  | balance
  | eyes
  | face
  | arms
  | speech
deriving DecidableEq

/-- Read one questionnaire answer. -/
def BEFASTAnswers.get (a : BEFASTAnswers) : BEFASTKey → Option Bool
  | .balance => a.balance
  | .eyes => a.eyes
  | .face => a.face
  | .arms => a.arms
  | .speech => a.speech

/-- `updateBEFASTAnswer`: overwrite one questionnaire answer. -/
def BEFASTAnswers.set (a : BEFASTAnswers) : BEFASTKey → Option Bool → BEFASTAnswers
  | .balance, v => { a with balance := v }
  | .eyes, v => { a with eyes := v }
  | .face, v => { a with face := v }
  | .arms, v => { a with arms := v }
  | .speech, v => { a with speech := v }

/-! ## Spec-side definitions (for refinement statements)

These follow the words of the specification, to be compared with the
definitions above that were translated from the source. -/

/-- Spec formula: `20 × (count of true BEFAST answers) + asymmetry-tier
bonus (30 if asymmetry>30, 15 if >15, else 0) + speech-tier bonus (25 if
isSlurred, +10 if confidence<0.7)`, before clamping. -/
def specLocalRaw (d : AnalysisData) : ℚ :=
  20 * (positiveBEFAST d.befastAnswers : ℚ)
  + (match d.faceAnalysis with
     | none => 0
     | some fa => if fa.asymmetry > 30 then 30 else if fa.asymmetry > 15 then 15 else 0)
  + (match d.speechAnalysis with
     | none => 0
     | some sp =>
       (if sp.isSlurred then 25 else 0) + (if sp.confidence < 0.7 then 10 else 0))

/-- Spec threshold table claimed by C2: `score≥70 ⇒ HIGH`,
`40≤score<70 ⇒ MEDIUM`, else `LOW`. -/
def specLevel70_40 (s : ℚ) : RiskLevel :=
  if s ≥ 70 then .HIGH else if s ≥ 40 then .MEDIUM else .LOW

/-- The second threshold table present in the source (UI variant):
`score≥50 ⇒ HIGH`, `25≤score<50 ⇒ MEDIUM`, else `LOW`. -/
def specLevel50_25 (s : ℚ) : RiskLevel :=
  if s ≥ 50 then .HIGH else if s ≥ 25 then .MEDIUM else .LOW

/-! ## Real-time voice analysis (realTimeVoiceAnalysis.ts) -/

/-- `RealTimeSpeechAnalysisResult` minus the `timestamp` field. -/
structure RealTimeSpeechAnalysisResult where
  confidence : ℚ
  isSlurred : Bool
  transcription : String
  volume : ℚ
  pitch : ℚ
  clarity : ℚ
  isSpeaking : Bool
deriving DecidableEq

/-- The per-tick feature record returned by `extractRealTimeFeatures` and
consumed by `analyzeRealTimeSpeech`. -/
structure RealTimeFeatures where
  volume : ℚ
  pitch : ℚ
  spectralCentroid : ℚ
  zeroCrossingRate : ℚ
  clarity : ℚ
  isSpeaking : Bool
deriving DecidableEq

/-- The seven canned slurred-speech phrases (shared verbatim by the
real-time and single-shot classifiers). -/
def slurredPhrases : List String :=
  ["I can\x27t speak clearly right now",
   "My words are coming out wrong",
   "Something is wrong with my speech",
   "I feel like I\x27m slurring my words",
   "Help me, I can\x27t talk properly",
   "My voice sounds different today",
   "I\x27m having trouble forming words"]

/-- The seven canned normal-speech phrases. -/
def normalPhrases : List String :=
  ["Hello, I am speaking clearly",
   "I can talk normally right now",
   "My speech is fine today",
   "I don\x27t have any problems speaking",
   "Everything sounds normal to me",
   "My voice is working well",
   "I can communicate clearly"]

/-- `slurredReasons.join(", ") || "normal"` (an empty join is falsy in
JavaScript, so an empty reason list yields `"normal"`). -/
def joinedReasons (reasons : List String) : String :=
  if reasons = [] then "normal" else String.intercalate ", " reasons

/-- `analyzeRealTimeSpeech` of realTimeVoiceAnalysis.ts.  `rand` selects
the canned phrase (`Math.floor(Math.random() * phrases.length)` becomes
`rand % phrases.length`); `dev` is the `NODE_ENV === development` flag
that appends the reason list to the transcription while speaking. -/
def analyzeRealTimeSpeech (f : RealTimeFeatures) (rand : ℕ) (dev : Bool) :
    RealTimeSpeechAnalysisResult :=
  let confidence : ℚ :=
    if f.isSpeaking then
      0.5
      + (if f.volume > 0.1 then 0.2 else 0)
      + (if f.volume > 0.2 then 0.15 else 0)
      + (if f.volume > 0.3 then 0.1 else 0)
      + (if f.pitch > 80 ∧ f.pitch < 400 then 0.15 else 0)
      + (if f.clarity > 0.3 then 0.1 else 0)
      + (if f.clarity > 0.5 then 0.1 else 0)
      + (if f.spectralCentroid > 20 ∧ f.spectralCentroid < 200 then 0.1 else 0)
    else 0.1
  let confidence := min 0.95 (max 0.1 confidence)
  let lowVolume := f.isSpeaking ∧ f.volume < 0.05
  let highNoise := f.isSpeaking ∧ f.zeroCrossingRate > 0.15
  let abnormalFreq := f.isSpeaking ∧ (f.spectralCentroid < 10 ∨ f.spectralCentroid > 300)
  let abnormalPitch := f.isSpeaking ∧ (f.pitch < 50 ∨ f.pitch > 600)
  let lowClarity := f.isSpeaking ∧ f.clarity < 0.2
  let isSlurred : Bool :=
    decide lowVolume || decide highNoise || decide abnormalFreq
    || decide abnormalPitch || decide lowClarity
  let slurredReasons : List String :=
    (if lowVolume then ["low volume"] else [])
    ++ (if highNoise then ["high noise"] else [])
    ++ (if abnormalFreq then ["abnormal frequency"] else [])
    ++ (if abnormalPitch then ["abnormal pitch"] else [])
    ++ (if lowClarity then ["low clarity"] else [])
  let transcription :=
    if f.isSpeaking then
      if isSlurred then slurredPhrases.getD (rand % slurredPhrases.length) ""
      else normalPhrases.getD (rand % normalPhrases.length) ""
    else "No speech detected"
  let transcription :=
    if dev ∧ f.isSpeaking then
      transcription ++ " [" ++ joinedReasons slurredReasons ++ "]"
    else transcription
  { confidence := confidence
    isSlurred := isSlurred
    transcription := transcription
    volume := f.volume
    pitch := f.pitch
    clarity := f.clarity
    isSpeaking := f.isSpeaking }

/-- `smoothResults`: with an empty history the raw result is returned
unchanged; otherwise confidence/volume/pitch/clarity are exponentially
smoothed against `lastResults[lastResults.length - 1]` while `isSlurred`
and `isSpeaking` are taken from the raw result. -/
def smoothResults (smoothingFactor : ℚ) (lastResults : List RealTimeSpeechAnalysisResult)
    (newResult : RealTimeSpeechAnalysisResult) : RealTimeSpeechAnalysisResult :=
  match lastResults.getLast? with
  | none => newResult
  | some lastResult =>
    { newResult with
      confidence := lastResult.confidence * smoothingFactor
        + newResult.confidence * (1 - smoothingFactor)
      volume := lastResult.volume * smoothingFactor
        + newResult.volume * (1 - smoothingFactor)
      pitch := lastResult.pitch * smoothingFactor
        + newResult.pitch * (1 - smoothingFactor)
      clarity := lastResult.clarity * smoothingFactor
        + newResult.clarity * (1 - smoothingFactor) }

/-- One tick of `performRealTimeAnalysis` after classification: smooth the
raw result against the history, push it, and evict the oldest entry once
the history exceeds 10. -/
def loopTick (smoothingFactor : ℚ) (history : List RealTimeSpeechAnalysisResult)
    (raw : RealTimeSpeechAnalysisResult) :
    RealTimeSpeechAnalysisResult × List RealTimeSpeechAnalysisResult :=
  let smoothed := smoothResults smoothingFactor history raw
  let h := history ++ [smoothed]
  (smoothed, if h.length > 10 then h.tail else h)

/-- The emitted-result stream of the loop over a list of raw per-tick
results. -/
def loopRun (smoothingFactor : ℚ) (history : List RealTimeSpeechAnalysisResult) :
    List RealTimeSpeechAnalysisResult → List RealTimeSpeechAnalysisResult
  | [] => []
  | raw :: rest =>
    let (out, h) := loopTick smoothingFactor history raw
    out :: loopRun smoothingFactor h rest

/-- `RealTimeAnalysisConfig` of realTimeVoiceAnalysis.ts. -/
structure RealTimeAnalysisConfig where
  analysisInterval : ℚ
  chunkSize : ℕ
  sensitivity : ℚ
  smoothingFactor : ℚ
deriving DecidableEq

/-- The constructor's default configuration. -/
def defaultConfig : RealTimeAnalysisConfig :=
  { analysisInterval := 200, chunkSize := 1024, sensitivity := 0.3, smoothingFactor := 0.7 }

/-! ### Lifecycle state machine of the real-time loop

The mutable fields of `RealTimeVoiceAnalysisService` relevant to
`startAnalysis`/`stopAnalysis`, with callbacks modelled by presence flags
and `window.setInterval`/`clearInterval` modelled by a fresh-id allocator
(`nextTimerId`) plus the list of currently active timers. -/
structure VoiceLoopState where
  isAnalyzing : Bool
  hasAnalyser : Bool
  analysisInterval : Option ℕ
  hasResultCallback : Bool
  hasErrorCallback : Bool
  lastResults : List RealTimeSpeechAnalysisResult
  nextTimerId : ℕ
  activeTimers : List ℕ
deriving DecidableEq

/-- `startAnalysis`: early return (warning only) while already analyzing;
early return (error callback only) when no analyser exists; otherwise
store the callbacks, set `isAnalyzing`, and create the interval timer. -/
def startAnalysis (s : VoiceLoopState) (hasOnError : Bool) : VoiceLoopState :=
  if s.isAnalyzing then s
  else if ¬s.hasAnalyser then s
  else
    { s with
      hasResultCallback := true
      hasErrorCallback := hasOnError
      isAnalyzing := true
      analysisInterval := some s.nextTimerId
      activeTimers := s.activeTimers ++ [s.nextTimerId]
      nextTimerId := s.nextTimerId + 1 }

/-- `stopAnalysis`: early return when not analyzing; otherwise clear the
flag, clear the interval (if any), drop the callbacks and the history. -/
def stopAnalysis (s : VoiceLoopState) : VoiceLoopState :=
  if ¬s.isAnalyzing then s
  else
    { s with
      isAnalyzing := false
      analysisInterval := none
      activeTimers :=
        match s.analysisInterval with
        | none => s.activeTimers
        | some id => s.activeTimers.filter (fun t => t ≠ id)
      hasResultCallback := false
      hasErrorCallback := false
      lastResults := [] }

/-! ## Offline feature extraction (simpleOfflineSpeechAnalysis.ts)

The decoded `AudioBuffer`: `samples` is `getChannelData(0)`, and the Web
Audio API guarantees `duration = samples.length / sampleRate` with a
positive sample rate. -/
structure AudioBuffer where
  samples : List ℚ
  sampleRate : ℕ
  numberOfChannels : ℕ

/-- Sum of squared samples (the `reduce` inside the RMS computation). -/
def sumSquares (samples : List ℚ) : ℚ :=
  (samples.map (fun s => s * s)).sum

/-- The frame start offsets of the sliding-window loops (`fftSize`/
`frameSize` 1024, hop 512): multiples of 512 strictly below
`samples.length - 1024`. -/
def frameStarts (len : ℕ) : List ℕ :=
  (List.range len).filter (fun i => i % 512 = 0 ∧ i + 1024 < len)

/-- `samples.slice(i, i + 1024)`. -/
def sliceFrame (samples : List ℚ) (i : ℕ) : List ℚ :=
  (samples.drop i).take 1024

/-- The Hann window factor `0.5 * (1 - cos(2πi/(len-1)))`.  (For a
one-sample frame JavaScript divides 0 by 0; all call sites use frames of
length 1024, where the two definitions agree.) -/
noncomputable def hannValue (len : ℕ) (i : ℕ) : ℝ :=
  0.5 * (1 - Real.cos (2 * Real.pi * i / ((len : ℝ) - 1)))

/-- The indexed loop body of `applyHannWindow`. -/
noncomputable def applyHannWindowAux (len : ℕ) (i : ℕ) : List ℚ → List ℝ
  | [] => []
  | s :: rest => (s : ℝ) * hannValue len i :: applyHannWindowAux len (i + 1) rest

/-- `applyHannWindow`: pointwise product of the frame with the Hann
window over its own length. -/
noncomputable def applyHannWindow (samples : List ℚ) : List ℝ :=
  applyHannWindowAux samples.length 0 samples

/-- `computeMagnitude`: treats consecutive windowed samples as real and
imaginary parts, `magnitude[i] = sqrt(w[2i]² + w[2i+1]²)` for
`i < windowed.length / 2` (out-of-range reads default to 0 via `|| 0`). -/
noncomputable def computeMagnitude (windowed : List ℝ) : List ℝ :=
  (List.range (windowed.length / 2)).map fun i =>
    Real.sqrt ((windowed.getD (2 * i) 0) ^ 2 + (windowed.getD (2 * i + 1) 0) ^ 2)

/-- The frequency-weighted accumulation of one frame's magnitude list:
`Σⱼ (j * sampleRate / 1024) * magnitude[j]`. -/
noncomputable def weightedFreqSumAux (sampleRate : ℕ) (j : ℕ) : List ℝ → ℝ
  | [] => 0
  | m :: rest => ((j : ℝ) * (sampleRate : ℝ) / 1024) * m + weightedFreqSumAux sampleRate (j + 1) rest

/-- `calculateSpectralCentroid`: weighted mean frequency over all frames,
guarded by the `weightSum > 0` check. -/
noncomputable def calculateSpectralCentroid (samples : List ℚ) (sampleRate : ℕ) : ℝ :=
  let mags := (frameStarts samples.length).map fun i =>
    computeMagnitude (applyHannWindow (sliceFrame samples i))
  let sum := (mags.map (weightedFreqSumAux sampleRate 0)).sum
  let weightSum := (mags.map List.sum).sum
  if weightSum > 0 then sum / weightSum else 0

/-- Adjacent sign-change count of `calculateZeroCrossingRate` (a sample is
counted as nonnegative exactly when `sample >= 0`). -/
def countCrossings (samples : List ℚ) : ℕ :=
  ((samples.zip (samples.drop 1)).filter
    (fun ab => decide (0 ≤ ab.2) ≠ decide (0 ≤ ab.1))).length

/-- The autocorrelation at a candidate period:
`Σᵢ samples[i] * samples[i + period]`. -/
def autocorrelation (samples : List ℚ) (period : ℕ) : ℚ :=
  ((samples.zip (samples.drop period)).map (fun ab => ab.1 * ab.2)).sum

/-- `calculatePitch`: best autocorrelation period restricted to 80–400 Hz
(periods in `[⌊rate/400⌋, ⌊rate/80⌋)` with `period < samples.length / 2`),
scanned in increasing order keeping the first strict maximum; `0` when no
period wins. -/
def calculatePitch (samples : List ℚ) (sampleRate : ℕ) : ℚ :=
  let minPeriod := sampleRate / 400
  let maxPeriod := sampleRate / 80
  let candidates := (List.range maxPeriod).filter
    (fun p => minPeriod ≤ p ∧ 2 * p < samples.length)
  let best := candidates.foldl
    (fun best p =>
      if autocorrelation samples p > best.2 then (p, autocorrelation samples p) else best)
    ((0 : ℕ), (0 : ℚ))
  if 0 < best.1 then (sampleRate : ℚ) / (best.1 : ℚ) else 0

/-- Descending insertion of `findPeaks`' sort comparator. -/
noncomputable def insertDesc (x : ℝ) : List ℝ → List ℝ
  | [] => [x]
  | y :: ys => if y < x then x :: y :: ys else y :: insertDesc x ys

/-- Descending sort (`peaks.sort((a, b) => b - a)`). -/
noncomputable def sortDesc : List ℝ → List ℝ
  | [] => []
  | x :: xs => insertDesc x (sortDesc xs)

/-- `findPeaks`: interior local maxima exceeding 10% of the maximum
magnitude, sorted by magnitude descending.  (`Math.max(...magnitude)` is
modelled by `foldl max 0`; magnitudes are square roots, hence
nonnegative, so the two agree on every nonempty magnitude list.) -/
noncomputable def findPeaks (magnitude : List ℝ) : List ℝ :=
  let threshold := magnitude.foldl max 0 * 0.1
  sortDesc (((magnitude.zip (magnitude.drop 1)).zip (magnitude.drop 2)).filterMap
    (fun pcn =>
      if pcn.1.2 > threshold ∧ pcn.1.2 > pcn.1.1 ∧ pcn.1.2 > pcn.2 then some pcn.1.2
      else none))

/-- `calculateFormants`: first three peaks of every frame, truncated to
nine values.  (`sampleRate` is a parameter of the source function but is
not read by its body.) -/
noncomputable def calculateFormants (samples : List ℚ) (_sampleRate : ℕ) : List ℝ :=
  (((frameStarts samples.length).map fun i =>
    (findPeaks (computeMagnitude (applyHannWindow (sliceFrame samples i)))).take 3).flatten).take 9

/-- The feature record returned by `extractAudioFeatures`.  `rms = none`
models the `NaN` produced by dividing by a zero sample count and
`zeroCrossingRate = none` the `NaN` produced by dividing by
`length - 1 = 0`; both compare as `false` downstream, like `NaN`. -/
structure SpeechFeatures where
  duration : ℚ
  sampleRate : ℕ
  channels : ℕ
  rms : Option ℝ
  spectralCentroid : ℝ
  zeroCrossingRate : Option ℚ
  pitch : ℚ
  formants : List ℝ

/-- `extractAudioFeatures` over the first channel of the decoded buffer. -/
noncomputable def extractAudioFeatures (buf : AudioBuffer) : SpeechFeatures :=
  { duration := (buf.samples.length : ℚ) / (buf.sampleRate : ℚ)
    sampleRate := buf.sampleRate
    channels := buf.numberOfChannels
    rms :=
      if buf.samples.length = 0 then none
      else some (Real.sqrt ((sumSquares buf.samples / (buf.samples.length : ℚ) : ℚ) : ℝ))
    spectralCentroid := calculateSpectralCentroid buf.samples buf.sampleRate
    zeroCrossingRate :=
      if buf.samples.length = 1 then none
      else some ((countCrossings buf.samples : ℚ) / ((buf.samples.length : ℚ) - 1))
    pitch := calculatePitch buf.samples buf.sampleRate
    formants := calculateFormants buf.samples buf.sampleRate }

/-! ## Single-shot heuristic classifier (`analyzeSpeechPatterns`) -/

/-- JavaScript `x > c` where `x` may be `NaN` (`none`). -/
def optGtQ (x : Option ℚ) (c : ℚ) : Bool :=
  match x with
  | none => false
  | some v => decide (v > c)

/-- JavaScript `x < c` where `x` may be `NaN` (`none`). -/
def optLtQ (x : Option ℚ) (c : ℚ) : Bool :=
  match x with
  | none => false
  | some v => decide (v < c)

/-- JavaScript `x > c` on a possibly-`NaN` real value. -/
noncomputable def optGtR (x : Option ℝ) (c : ℝ) : Bool :=
  match x with
  | none => false
  | some v => decide (v > c)

/-- JavaScript `x < c` on a possibly-`NaN` real value. -/
noncomputable def optLtR (x : Option ℝ) (c : ℝ) : Bool :=
  match x with
  | none => false
  | some v => decide (v < c)

/-- Output of `analyzeSpeechPatterns`; the internal `slurredReasons`
accumulator is exposed alongside the returned fields. -/
structure SpeechPatternOutput where
  confidence : ℚ
  isSlurred : Bool
  slurredReasons : List String
  transcription : String

/-- `analyzeSpeechPatterns` of simpleOfflineSpeechAnalysis.ts: baseline
confidence 0.5 raised by quality bonuses then clamped to `[0.3, 0.95]`;
`isSlurred` is the disjunction of the five threshold rules, each pushing
a reason ("too long" only fires in the `else` branch of "too short"). -/
noncomputable def analyzeSpeechPatterns (f : SpeechFeatures) (rand : ℕ) (dev : Bool) :
    SpeechPatternOutput :=
  let confidence : ℚ :=
    0.5
    + (if optGtR f.rms 0.05 then 0.15 else 0)
    + (if optGtR f.rms 0.1 then 0.15 else 0)
    + (if optGtR f.rms 0.2 then 0.1 else 0)
    + (if f.duration > 0.5 then 0.1 else 0)
    + (if f.duration > 1 then 0.1 else 0)
    + (if f.duration > 2 then 0.05 else 0)
    + (if f.spectralCentroid > 800 ∧ f.spectralCentroid < 3500 then 0.1 else 0)
    + (if optGtQ f.zeroCrossingRate 0.01 ∧ optLtQ f.zeroCrossingRate 0.08 then 0.1 else 0)
    + (if f.pitch > 80 ∧ f.pitch < 400 then 0.1 else 0)
  let confidence := min 0.95 (max 0.3 confidence)
  let lowVolume := optLtR f.rms 0.03
  let highNoise := optGtQ f.zeroCrossingRate 0.12
  let abnormalFreq : Bool := decide (f.spectralCentroid < 300) || decide (f.spectralCentroid > 5000)
  let tooShort : Bool := decide (f.duration < 0.3)
  let tooLong : Bool := !tooShort && decide (f.duration > 15)
  let abnormalPitch : Bool := decide (f.pitch < 50) || decide (f.pitch > 600)
  let isSlurred := lowVolume || highNoise || abnormalFreq || tooShort || tooLong || abnormalPitch
  let slurredReasons : List String :=
    (if lowVolume then ["low volume"] else [])
    ++ (if highNoise then ["high noise"] else [])
    ++ (if abnormalFreq then ["abnormal frequency"] else [])
    ++ (if tooShort then ["too short"] else [])
    ++ (if tooLong then ["too long"] else [])
    ++ (if abnormalPitch then ["abnormal pitch"] else [])
  let transcription :=
    if isSlurred then slurredPhrases.getD (rand % slurredPhrases.length) ""
    else normalPhrases.getD (rand % normalPhrases.length) ""
  let transcription :=
    if dev then transcription ++ " [" ++ joinedReasons slurredReasons ++ "]"
    else transcription
  { confidence := confidence
    isSlurred := isSlurred
    slurredReasons := slurredReasons
    transcription := transcription }

/-! # Theorems -/

/-! ## Risk scoring (claims C1, C2, C7) -/

theorem rawLocalScore_eq_spec (d : AnalysisData) : rawLocalScore d = specLocalRaw d := by
  obtain ⟨b, fa, sp⟩ := d
  unfold rawLocalScore specLocalRaw
  rcases Nat.eq_zero_or_pos (positiveBEFAST b) with h | h
  · simp [h]
  · rw [if_pos h]; ring_nf

theorem rawLocalScore_nonneg (d : AnalysisData) : 0 ≤ rawLocalScore d := by
  obtain ⟨b, fa, sp⟩ := d
  unfold rawLocalScore
  cases fa <;> cases sp <;> dsimp only <;> split_ifs <;> positivity

/-- Claim C1: the locally computed risk score equals the spec formula
(20 per positive BEFAST answer, asymmetry tier 30/15, speech bonuses
25 and 10) clamped to `[0, 100]`, and the spec's worked scenario
(2 positive answers, asymmetry 35, slurred, confidence 0.5) yields the
clamped score 100 with level HIGH. -/
theorem claim_C1_local_score_formula :
    (∀ d : AnalysisData,
      (calculateLocally d).score = min (specLocalRaw d) 100 ∧
      0 ≤ (calculateLocally d).score ∧ (calculateLocally d).score ≤ 100) ∧
    specLocalRaw
      { befastAnswers := ⟨some true, some true, some false, some false, some false⟩
        faceAnalysis := some ⟨35, 0.9⟩
        speechAnalysis := some ⟨0.5, true⟩ } = 105 ∧
    calculateLocally
      { befastAnswers := ⟨some true, some true, some false, some false, some false⟩
        faceAnalysis := some ⟨35, 0.9⟩
        speechAnalysis := some ⟨0.5, true⟩ } = { score := 100, level := .HIGH } := by
  have hcount : positiveBEFAST ⟨some true, some true, some false, some false, some false⟩ = 2 := by
    decide
  have h105 : specLocalRaw
      { befastAnswers := ⟨some true, some true, some false, some false, some false⟩
        faceAnalysis := some ⟨35, 0.9⟩
        speechAnalysis := some ⟨0.5, true⟩ } = 105 := by
    unfold specLocalRaw
    rw [hcount]
    norm_num
  refine ⟨fun d => ?_, h105, ?_⟩
  · have hs : (calculateLocally d).score = min (rawLocalScore d) 100 := rfl
    refine ⟨by rw [hs, rawLocalScore_eq_spec], ?_, ?_⟩
    · rw [hs]
      exact le_min (rawLocalScore_nonneg d) (by norm_num)
    · rw [hs]
      exact min_le_right _ _
  · have hraw : rawLocalScore
        { befastAnswers := ⟨some true, some true, some false, some false, some false⟩
          faceAnalysis := some ⟨35, 0.9⟩
          speechAnalysis := some ⟨0.5, true⟩ } = 105 := by
      rw [rawLocalScore_eq_spec, h105]
    show ({ score := min (rawLocalScore _) 100
            level := if rawLocalScore _ ≥ 70 then .HIGH
              else if rawLocalScore _ ≥ 40 then .MEDIUM else .LOW } : AIRiskScore) = _
    rw [hraw, min_eq_right (by norm_num : (100 : ℚ) ≤ 105),
      if_pos (by norm_num : (105 : ℚ) ≥ 70)]

/-- Claim C2 counterexample: the questionnaire page's `calculateScore`
maps the score 60 (three positive BEFAST answers) to HIGH, whereas the
claimed uniform 70/40 threshold table maps 60 to MEDIUM. -/
theorem claim_C2_counterexample :
    (calculateScore ⟨some true, some true, some true, some false, some false⟩ none none).score
      = 60 ∧
    (calculateScore ⟨some true, some true, some true, some false, some false⟩ none none).level
      = .HIGH ∧
    specLevel70_40 60 = .MEDIUM ∧
    RiskLevel.HIGH ≠ RiskLevel.MEDIUM := by
  have hcount : positiveBEFAST ⟨some true, some true, some true, some false, some false⟩ = 3 := by
    decide
  have hsc : (calculateScore ⟨some true, some true, some true, some false, some false⟩ none none)
      = { score := 60, level := .HIGH, color := "text-red-600" } := by
    unfold calculateScore
    rw [hcount]
    norm_num
  refine ⟨by rw [hsc], by rw [hsc], ?_, by decide⟩
  unfold specLevel70_40
  norm_num

/-- Claim C2 (amended): `calculateLocally` decides the level with the
70/40 thresholds on its (clamped) score, while the questionnaire page's
`calculateScore` decides it with the 50/25 thresholds on its score. -/
theorem claim_C2_two_threshold_tables :
    (∀ d : AnalysisData,
      (calculateLocally d).level = specLevel70_40 (calculateLocally d).score) ∧
    (∀ (b : BEFASTAnswers) (f : Option FaceAnalysisResult) (s : Option SpeechAnalysisResult),
      (calculateScore b f s).level = specLevel50_25 (calculateScore b f s).score) := by
  constructor
  · intro d
    show (if rawLocalScore d ≥ 70 then RiskLevel.HIGH
          else if rawLocalScore d ≥ 40 then RiskLevel.MEDIUM else RiskLevel.LOW)
        = specLevel70_40 (min (rawLocalScore d) 100)
    unfold specLevel70_40
    rcases le_or_lt (rawLocalScore d) 100 with h | h
    · rw [min_eq_left h]
    · rw [min_eq_right h.le]
      rw [if_pos (by linarith), if_pos (by norm_num)]
  · intro b f s
    unfold calculateScore specLevel50_25
    dsimp only
    split_ifs with h1 h2 <;> simp_all

theorem positiveBEFAST_set_true (a : BEFASTAnswers) (k : BEFASTKey)
    (h : a.get k ≠ some true) :
    positiveBEFAST (a.set k (some true)) = positiveBEFAST a + 1 := by
  obtain ⟨b, e, f, ar, s⟩ := a
  cases k <;>
    simp only [BEFASTAnswers.get] at h <;>
    simp only [BEFASTAnswers.set, positiveBEFAST, BEFASTAnswers.values, List.filter_cons,
      List.filter_nil, decide_eq_true_eq] <;>
    split_ifs <;> simp_all [List.length_cons]

theorem rawLocalScore_set_true (d : AnalysisData) (k : BEFASTKey)
    (h : d.befastAnswers.get k ≠ some true) :
    rawLocalScore { d with befastAnswers := d.befastAnswers.set k (some true) }
      = rawLocalScore d + 20 := by
  obtain ⟨b, fa, sp⟩ := d
  rw [rawLocalScore_eq_spec, rawLocalScore_eq_spec]
  unfold specLocalRaw
  dsimp only at h ⊢
  rw [positiveBEFAST_set_true b k h]
  push_cast
  ring

/-- Claim C7: with face analysis, speech analysis and the other BEFAST
answers fixed, turning one non-`true` BEFAST answer into `true` never
decreases the locally computed risk score. -/
theorem claim_C7_befast_monotone (d : AnalysisData) (k : BEFASTKey)
    (h : d.befastAnswers.get k ≠ some true) :
    (calculateLocally d).score ≤
      (calculateLocally { d with befastAnswers := d.befastAnswers.set k (some true) }).score := by
  show min (rawLocalScore d) 100 ≤
    min (rawLocalScore { d with befastAnswers := d.befastAnswers.set k (some true) }) 100
  rw [rawLocalScore_set_true d k h]
  exact min_le_min (by linarith) le_rfl

theorem claim_C7_befast_monotone_witness :
    (calculateLocally ⟨⟨some false, some true, none, none, none⟩, none, none⟩).score ≤
      (calculateLocally ⟨⟨some true, some true, none, none, none⟩, none, none⟩).score :=
  claim_C7_befast_monotone ⟨⟨some false, some true, none, none, none⟩, none, none⟩
    .balance (by decide)

/-! ## Real-time loop (claims C5, C6, C8, C10) -/

theorem smoothResults_isSlurred (sf : ℚ) (hist : List RealTimeSpeechAnalysisResult)
    (r : RealTimeSpeechAnalysisResult) :
    (smoothResults sf hist r).isSlurred = r.isSlurred := by
  unfold smoothResults
  cases hist.getLast? <;> rfl

theorem smoothResults_isSpeaking (sf : ℚ) (hist : List RealTimeSpeechAnalysisResult)
    (r : RealTimeSpeechAnalysisResult) :
    (smoothResults sf hist r).isSpeaking = r.isSpeaking := by
  unfold smoothResults
  cases hist.getLast? <;> rfl

theorem loopRun_isSlurred (sf : ℚ) (raws : List RealTimeSpeechAnalysisResult) :
    ∀ hist, (loopRun sf hist raws).map (fun r => r.isSlurred)
      = raws.map (fun r => r.isSlurred) := by
  induction raws with
  | nil => intro hist; rfl
  | cons raw rest ih =>
    intro hist
    simp [loopRun, loopTick, smoothResults_isSlurred, ih]

/-- Claim C5: with an empty history the raw tick result is emitted
unchanged; with a non-empty history the continuous fields are smoothed as
`previous*sf + current*(1-sf)` against the immediately preceding emitted
result while `isSlurred`/`isSpeaking` are the current tick's raw values;
a raw verdict sequence `[false, true, false]` is emitted exactly as
`[false, true, false]`; the default smoothing factor is 0.7. -/
theorem claim_C5_smoothing :
    (∀ (sf : ℚ) (r : RealTimeSpeechAnalysisResult), smoothResults sf [] r = r) ∧
    (∀ (sf : ℚ) (hist : List RealTimeSpeechAnalysisResult)
      (prev r : RealTimeSpeechAnalysisResult), hist.getLast? = some prev →
        (smoothResults sf hist r).confidence = prev.confidence * sf + r.confidence * (1 - sf) ∧
        (smoothResults sf hist r).volume = prev.volume * sf + r.volume * (1 - sf) ∧
        (smoothResults sf hist r).pitch = prev.pitch * sf + r.pitch * (1 - sf) ∧
        (smoothResults sf hist r).clarity = prev.clarity * sf + r.clarity * (1 - sf) ∧
        (smoothResults sf hist r).isSlurred = r.isSlurred ∧
        (smoothResults sf hist r).isSpeaking = r.isSpeaking) ∧
    (∀ (sf : ℚ) (r1 r2 r3 : RealTimeSpeechAnalysisResult),
      r1.isSlurred = false → r2.isSlurred = true → r3.isSlurred = false →
        (loopRun sf [] [r1, r2, r3]).map (fun r => r.isSlurred) = [false, true, false]) ∧
    defaultConfig.smoothingFactor = 0.7 := by
  refine ⟨fun sf r => rfl, fun sf hist prev r h => ?_, fun sf r1 r2 r3 h1 h2 h3 => ?_, rfl⟩
  · unfold smoothResults
    rw [h]
    exact ⟨rfl, rfl, rfl, rfl, rfl, rfl⟩
  · rw [loopRun_isSlurred]
    simp [h1, h2, h3]

theorem claim_C5_smoothing_witness :
    ([(⟨0.8, false, "a", 0.2, 120, 0.4, true⟩ : RealTimeSpeechAnalysisResult)].getLast?
      = some ⟨0.8, false, "a", 0.2, 120, 0.4, true⟩) ∧
    ((smoothResults 0.7 [⟨0.8, false, "a", 0.2, 120, 0.4, true⟩]
        ⟨0.4, true, "b", 0.1, 90, 0.2, true⟩).confidence
      = (0.8 : ℚ) * 0.7 + 0.4 * (1 - 0.7) ∧
      (smoothResults 0.7 [⟨0.8, false, "a", 0.2, 120, 0.4, true⟩]
        ⟨0.4, true, "b", 0.1, 90, 0.2, true⟩).isSlurred = true) ∧
    (loopRun 0.7 [] [⟨0.5, false, "a", 0.2, 120, 0.4, true⟩,
      ⟨0.5, true, "b", 0.2, 120, 0.4, true⟩,
      ⟨0.5, false, "c", 0.2, 120, 0.4, true⟩]).map (fun r => r.isSlurred)
      = [false, true, false] := by
  have h := claim_C5_smoothing.2.1 0.7 [⟨0.8, false, "a", 0.2, 120, 0.4, true⟩]
    ⟨0.8, false, "a", 0.2, 120, 0.4, true⟩ ⟨0.4, true, "b", 0.1, 90, 0.2, true⟩ rfl
  exact ⟨rfl, ⟨h.1, h.2.2.2.2.1⟩,
    claim_C5_smoothing.2.2.1 0.7 _ _ _ rfl rfl rfl⟩

/-- Claim C6: `startAnalysis` while the loop is analyzing leaves the whole
state unchanged (callbacks, interval, timers); `stopAnalysis` when not
analyzing is a no-op; and a double start from an idle state that has an
analyser creates exactly one timer. -/
theorem claim_C6_lifecycle :
    (∀ (s : VoiceLoopState) (e : Bool), s.isAnalyzing = true → startAnalysis s e = s) ∧
    (∀ s : VoiceLoopState, s.isAnalyzing = false → stopAnalysis s = s) ∧
    (∀ (s : VoiceLoopState) (e e2 : Bool), s.isAnalyzing = false → s.hasAnalyser = true →
      startAnalysis (startAnalysis s e) e2 = startAnalysis s e ∧
      (startAnalysis s e).activeTimers = s.activeTimers ++ [s.nextTimerId] ∧
      (s.activeTimers = [] → (startAnalysis s e).activeTimers.length = 1)) := by
  refine ⟨fun s e h => ?_, fun s h => ?_, fun s e e2 h1 h2 => ?_⟩
  · simp [startAnalysis, h]
  · simp [stopAnalysis, h]
  · have hs : startAnalysis s e =
        { s with
          hasResultCallback := true
          hasErrorCallback := e
          isAnalyzing := true
          analysisInterval := some s.nextTimerId
          activeTimers := s.activeTimers ++ [s.nextTimerId]
          nextTimerId := s.nextTimerId + 1 } := by
      simp [startAnalysis, h1, h2]
    refine ⟨?_, by rw [hs], fun ht => by rw [hs]; simp [ht]⟩
    rw [hs]
    simp [startAnalysis]

theorem claim_C6_lifecycle_witness :
    startAnalysis ⟨true, true, some 0, true, true, [], 1, [0]⟩ true
      = ⟨true, true, some 0, true, true, [], 1, [0]⟩ ∧
    stopAnalysis ⟨false, true, none, false, false, [], 0, []⟩
      = ⟨false, true, none, false, false, [], 0, []⟩ ∧
    startAnalysis (startAnalysis ⟨false, true, none, false, false, [], 0, []⟩ true) false
      = startAnalysis ⟨false, true, none, false, false, [], 0, []⟩ true ∧
    (startAnalysis ⟨false, true, none, false, false, [], 0, []⟩ true).activeTimers.length = 1 := by
  have h3 := claim_C6_lifecycle.2.2 ⟨false, true, none, false, false, [], 0, []⟩ true false rfl rfl
  exact ⟨claim_C6_lifecycle.1 _ true rfl, claim_C6_lifecycle.2.1 _ rfl, h3.1, h3.2.2 rfl⟩

/-- Claim C8: the single-shot classifier's confidence is clamped to
`[0.3, 0.95]` and the real-time classifier's raw confidence to
`[0.1, 0.95]`, for every feature record. -/
theorem claim_C8_confidence_bounds :
    (∀ (f : SpeechFeatures) (rand : ℕ) (dev : Bool),
      0.3 ≤ (analyzeSpeechPatterns f rand dev).confidence ∧
      (analyzeSpeechPatterns f rand dev).confidence ≤ 0.95) ∧
    (∀ (f : RealTimeFeatures) (rand : ℕ) (dev : Bool),
      0.1 ≤ (analyzeRealTimeSpeech f rand dev).confidence ∧
      (analyzeRealTimeSpeech f rand dev).confidence ≤ 0.95) := by
  constructor
  · intro f rand dev
    constructor
    · exact le_min (by norm_num) (le_max_left _ _)
    · exact min_le_left _ _
  · intro f rand dev
    constructor
    · exact le_min (by norm_num) (le_max_left _ _)
    · exact min_le_left _ _

/-- Claim C10: when the per-tick features report no speech, the raw
real-time result is never marked slurred, its confidence is exactly 0.1,
and its transcription is exactly "No speech detected". -/
theorem claim_C10_no_speech (f : RealTimeFeatures) (rand : ℕ) (dev : Bool)
    (h : f.isSpeaking = false) :
    (analyzeRealTimeSpeech f rand dev).isSlurred = false ∧
    (analyzeRealTimeSpeech f rand dev).confidence = 0.1 ∧
    (analyzeRealTimeSpeech f rand dev).transcription = "No speech detected" := by
  unfold analyzeRealTimeSpeech
  simp [h]
  norm_num

theorem claim_C10_no_speech_witness :
    (analyzeRealTimeSpeech ⟨0, 0, 0, 0, 0, false⟩ 0 false).isSlurred = false ∧
    (analyzeRealTimeSpeech ⟨0, 0, 0, 0, 0, false⟩ 0 false).confidence = 0.1 ∧
    (analyzeRealTimeSpeech ⟨0, 0, 0, 0, 0, false⟩ 0 false).transcription
      = "No speech detected" :=
  claim_C10_no_speech ⟨0, 0, 0, 0, 0, false⟩ 0 false rfl

/-! ## Offline extractor (claims C3, C4, C9) -/

theorem sumSquares_nonneg (l : List ℚ) : 0 ≤ sumSquares l := by
  induction l with
  | nil => simp [sumSquares]
  | cons a t ih =>
    have h : sumSquares (a :: t) = a * a + sumSquares t := by simp [sumSquares]
    rw [h]
    nlinarith [mul_self_nonneg a]

theorem sumSquares_eq_zero_iff (l : List ℚ) : sumSquares l = 0 ↔ ∀ s ∈ l, s = 0 := by
  induction l with
  | nil => simp [sumSquares]
  | cons a t ih =>
    have h : sumSquares (a :: t) = a * a + sumSquares t := by simp [sumSquares]
    rw [h]
    constructor
    · intro h0 s hs
      have ha : a * a = 0 := by nlinarith [sumSquares_nonneg t, mul_self_nonneg a]
      have ht : sumSquares t = 0 := by nlinarith [mul_self_nonneg a]
      rcases List.mem_cons.mp hs with rfl | hs
      · exact mul_self_eq_zero.mp ha
      · exact (ih.mp ht) s hs
    · intro hall
      have ha : a = 0 := hall a (by simp)
      have ht : sumSquares t = 0 := ih.mpr (fun s hs => hall s (by simp [hs]))
      simp [ha, ht]

theorem sumSquares_le_length (l : List ℚ) (h : ∀ s ∈ l, -1 ≤ s ∧ s ≤ 1) :
    sumSquares l ≤ l.length := by
  induction l with
  | nil => simp [sumSquares]
  | cons a t ih =>
    have heq : sumSquares (a :: t) = a * a + sumSquares t := by simp [sumSquares]
    have ha := h a (by simp)
    have ht := ih (fun s hs => h s (by simp [hs]))
    rw [heq, List.length_cons]
    push_cast
    nlinarith [ha.1, ha.2]

theorem mem_of_sliceFrame {samples : List ℚ} {i : ℕ} {s : ℚ}
    (hs : s ∈ sliceFrame samples i) : s ∈ samples :=
  List.mem_of_mem_drop (List.mem_of_mem_take hs)

theorem getD_zero_of_all_zero (w : List ℝ) (h : ∀ x ∈ w, x = 0) (k : ℕ) :
    w.getD k 0 = 0 := by
  induction w generalizing k with
  | nil => simp
  | cons a t ih =>
    cases k with
    | zero => simpa using h a (by simp)
    | succ n =>
      rw [List.getD_cons_succ]
      exact ih (fun x hx => h x (by simp [hx])) n

theorem applyHannWindowAux_zero (len : ℕ) (l : List ℚ) (h : ∀ s ∈ l, s = 0) :
    ∀ i, ∀ x ∈ applyHannWindowAux len i l, x = 0 := by
  induction l with
  | nil =>
    intro i x hx
    simp [applyHannWindowAux] at hx
  | cons a t ih =>
    intro i x hx
    rcases List.mem_cons.mp hx with rfl | hx
    · have ha : a = 0 := h a (by simp)
      simp [ha]
    · exact ih (fun s hs => h s (by simp [hs])) (i + 1) x hx

theorem applyHannWindow_zero (l : List ℚ) (h : ∀ s ∈ l, s = 0) :
    ∀ x ∈ applyHannWindow l, x = 0 :=
  applyHannWindowAux_zero l.length l h 0

theorem computeMagnitude_zero (w : List ℝ) (h : ∀ x ∈ w, x = 0) :
    ∀ x ∈ computeMagnitude w, x = 0 := by
  intro x hx
  simp only [computeMagnitude, List.mem_map, List.mem_range] at hx
  obtain ⟨i, _, rfl⟩ := hx
  rw [getD_zero_of_all_zero w h, getD_zero_of_all_zero w h]
  simp

theorem weightedFreqSumAux_zero (sr : ℕ) (m : List ℝ) (h : ∀ x ∈ m, x = 0) :
    ∀ j, weightedFreqSumAux sr j m = 0 := by
  induction m with
  | nil => intro j; rfl
  | cons a t ih =>
    intro j
    have ha : a = 0 := h a (by simp)
    have ht : ∀ x ∈ t, x = 0 := fun x hx => h x (by simp [hx])
    simp [weightedFreqSumAux, ha, ih ht]

theorem calculateSpectralCentroid_silent (samples : List ℚ) (rate : ℕ)
    (h : ∀ s ∈ samples, s = 0) : calculateSpectralCentroid samples rate = 0 := by
  have hmag : ∀ i, ∀ x ∈ computeMagnitude (applyHannWindow (sliceFrame samples i)), x = 0 :=
    fun i => computeMagnitude_zero _
      (applyHannWindow_zero _ (fun s hs => h s (mem_of_sliceFrame hs)))
  simp only [calculateSpectralCentroid]
  have hws : (((frameStarts samples.length).map fun i =>
      computeMagnitude (applyHannWindow (sliceFrame samples i))).map List.sum).sum = 0 := by
    apply List.sum_eq_zero
    intro x hx
    simp only [List.mem_map] at hx
    obtain ⟨m, ⟨i, _, rfl⟩, rfl⟩ := hx
    exact List.sum_eq_zero (hmag i)
  rw [hws]
  simp

theorem autocorrelation_silent (samples : List ℚ) (h : ∀ s ∈ samples, s = 0) (p : ℕ) :
    autocorrelation samples p = 0 := by
  apply List.sum_eq_zero
  intro x hx
  simp only [List.mem_map] at hx
  obtain ⟨⟨a, b⟩, hab, rfl⟩ := hx
  have ha : a = 0 := h a (List.of_mem_zip hab).1
  simp [ha]

theorem calculatePitch_silent (samples : List ℚ) (rate : ℕ) (h : ∀ s ∈ samples, s = 0) :
    calculatePitch samples rate = 0 := by
  simp only [calculatePitch]
  have hfold : ∀ l : List ℕ,
      l.foldl (fun best p =>
        if autocorrelation samples p > best.2 then (p, autocorrelation samples p) else best)
        ((0 : ℕ), (0 : ℚ)) = (0, 0) := by
    intro l
    induction l with
    | nil => rfl
    | cons p t ih =>
      rw [List.foldl_cons, if_neg, ih]
      rw [autocorrelation_silent samples h p]
      exact lt_irrefl 0
  rw [hfold]
  simp

theorem analyzeSpeechPatterns_too_short (f : SpeechFeatures) (rand : ℕ) (dev : Bool)
    (h : f.duration < 0.3) :
    (analyzeSpeechPatterns f rand dev).isSlurred = true ∧
    "too short" ∈ (analyzeSpeechPatterns f rand dev).slurredReasons := by
  have ht : decide (f.duration < 0.3) = true := decide_eq_true h
  unfold analyzeSpeechPatterns
  constructor
  · simp [ht]
  · simp [ht]

theorem extractAudioFeatures_duration (buf : AudioBuffer) :
    (extractAudioFeatures buf).duration
      = (buf.samples.length : ℚ) / (buf.sampleRate : ℚ) := rfl

theorem extractAudioFeatures_spectralCentroid (buf : AudioBuffer) :
    (extractAudioFeatures buf).spectralCentroid
      = calculateSpectralCentroid buf.samples buf.sampleRate := rfl

theorem extractAudioFeatures_pitch (buf : AudioBuffer) :
    (extractAudioFeatures buf).pitch = calculatePitch buf.samples buf.sampleRate := rfl

theorem rms_of_silent (buf : AudioBuffer) (hne : buf.samples ≠ [])
    (hz : ∀ s ∈ buf.samples, s = 0) : (extractAudioFeatures buf).rms = some 0 := by
  have hlen : buf.samples.length ≠ 0 := fun h => hne (List.length_eq_zero.mp h)
  have h0 : sumSquares buf.samples = 0 := (sumSquares_eq_zero_iff _).mpr hz
  simp [extractAudioFeatures, hlen, h0]

/-- Claim C3 counterexample: on the truly empty (0-duration) buffer the
extractor's RMS is the `NaN` of dividing by a zero sample count
(modelled by `none`), not 0 as claimed. -/
theorem claim_C3_counterexample :
    (extractAudioFeatures ⟨[], 44100, 1⟩).rms = none ∧
    (extractAudioFeatures ⟨[], 44100, 1⟩).rms ≠ some 0 := by
  constructor <;> simp [extractAudioFeatures]

/-- Claim C3 (amended): on the empty buffer the extractor returns
`rms = NaN` (`none`), centroid 0 and pitch 0, and the classifier still
marks the result slurred with "too short" among the reasons; on every
silent non-empty buffer it returns `rms = 0`, centroid 0 and pitch 0, and
whenever the duration is below 0.3 s the classifier marks the result
slurred with "too short" among the reasons. -/
theorem claim_C3_silent_audio :
    ((extractAudioFeatures ⟨[], 44100, 1⟩).rms = none ∧
     (extractAudioFeatures ⟨[], 44100, 1⟩).spectralCentroid = 0 ∧
     (extractAudioFeatures ⟨[], 44100, 1⟩).pitch = 0 ∧
     ∀ (rand : ℕ) (dev : Bool),
       (analyzeSpeechPatterns (extractAudioFeatures ⟨[], 44100, 1⟩) rand dev).isSlurred
         = true ∧
       "too short" ∈
         (analyzeSpeechPatterns (extractAudioFeatures ⟨[], 44100, 1⟩) rand dev).slurredReasons) ∧
    (∀ (buf : AudioBuffer) (rand : ℕ) (dev : Bool),
      buf.samples ≠ [] → (∀ s ∈ buf.samples, s = 0) →
        (extractAudioFeatures buf).rms = some 0 ∧
        (extractAudioFeatures buf).spectralCentroid = 0 ∧
        (extractAudioFeatures buf).pitch = 0 ∧
        ((extractAudioFeatures buf).duration < 0.3 →
          (analyzeSpeechPatterns (extractAudioFeatures buf) rand dev).isSlurred = true ∧
          "too short" ∈
            (analyzeSpeechPatterns (extractAudioFeatures buf) rand dev).slurredReasons)) := by
  constructor
  · refine ⟨by simp [extractAudioFeatures], ?_, ?_, fun rand dev => ?_⟩
    · rw [extractAudioFeatures_spectralCentroid]
      exact calculateSpectralCentroid_silent _ _ (by simp)
    · rw [extractAudioFeatures_pitch]
      exact calculatePitch_silent _ _ (by simp)
    · apply analyzeSpeechPatterns_too_short
      rw [extractAudioFeatures_duration]
      norm_num
  · intro buf rand dev hne hz
    refine ⟨rms_of_silent buf hne hz, ?_, ?_, fun hdur => ?_⟩
    · rw [extractAudioFeatures_spectralCentroid]
      exact calculateSpectralCentroid_silent _ _ hz
    · rw [extractAudioFeatures_pitch]
      exact calculatePitch_silent _ _ hz
    · exact analyzeSpeechPatterns_too_short _ rand dev hdur

theorem claim_C3_silent_audio_witness :
    (extractAudioFeatures ⟨[0, 0], 44100, 1⟩).rms = some 0 ∧
    (extractAudioFeatures ⟨[0, 0], 44100, 1⟩).spectralCentroid = 0 ∧
    (extractAudioFeatures ⟨[0, 0], 44100, 1⟩).pitch = 0 ∧
    (analyzeSpeechPatterns (extractAudioFeatures ⟨[0, 0], 44100, 1⟩) 0 false).isSlurred
      = true ∧
    "too short" ∈
      (analyzeSpeechPatterns (extractAudioFeatures ⟨[0, 0], 44100, 1⟩) 0 false).slurredReasons := by
  have h := claim_C3_silent_audio.2 ⟨[0, 0], 44100, 1⟩ 0 false (by decide) (by decide)
  have hdur : (extractAudioFeatures (⟨[0, 0], 44100, 1⟩ : AudioBuffer)).duration < 0.3 := by
    rw [extractAudioFeatures_duration]
    norm_num
  exact ⟨h.1, h.2.1, h.2.2.1, (h.2.2.2 hdur).1, (h.2.2.2 hdur).2⟩

/-- Claim C4 counterexample: the empty buffer vacuously has every sample
equal to 0, yet its RMS is not 0 — it is the `NaN` of a zero-by-zero
division (`none`), so the claimed equivalence fails on the empty buffer. -/
theorem claim_C4_counterexample :
    (∀ s ∈ ([] : List ℚ), -1 ≤ s ∧ s ≤ 1) ∧
    (∀ s ∈ ([] : List ℚ), s = 0) ∧
    ¬ ∃ r : ℝ, (extractAudioFeatures ⟨[], 44100, 1⟩).rms = some r ∧
      0 ≤ r ∧ r ≤ 1 ∧ (r = 0 ↔ ∀ s ∈ ([] : List ℚ), s = 0) := by
  refine ⟨by simp, by simp, ?_⟩
  rintro ⟨r, hr, -⟩
  simp [extractAudioFeatures] at hr

/-- Claim C4 (amended): for every non-empty sample buffer with samples in
`[-1, 1]`, the computed RMS is a value in `[0, 1]` that is 0 exactly when
every sample is 0.  (On the empty buffer the RMS is `NaN`, see the
counterexample.) -/
theorem claim_C4_rms_bounds (buf : AudioBuffer) (hne : buf.samples ≠ [])
    (hb : ∀ s ∈ buf.samples, -1 ≤ s ∧ s ≤ 1) :
    ∃ r : ℝ, (extractAudioFeatures buf).rms = some r ∧
      0 ≤ r ∧ r ≤ 1 ∧ (r = 0 ↔ ∀ s ∈ buf.samples, s = 0) := by
  have hlen : buf.samples.length ≠ 0 := fun h => hne (List.length_eq_zero.mp h)
  have hlenq : (0 : ℚ) < (buf.samples.length : ℚ) := by
    exact_mod_cast Nat.pos_of_ne_zero hlen
  have hq0 : (0 : ℚ) ≤ sumSquares buf.samples / (buf.samples.length : ℚ) :=
    div_nonneg (sumSquares_nonneg _) hlenq.le
  refine ⟨Real.sqrt ((sumSquares buf.samples / (buf.samples.length : ℚ) : ℚ) : ℝ),
    by simp [extractAudioFeatures, hlen], Real.sqrt_nonneg _, ?_, ?_⟩
  · apply Real.sqrt_le_one.mpr
    have hq1 : sumSquares buf.samples / (buf.samples.length : ℚ) ≤ 1 :=
      (div_le_one hlenq).mpr (sumSquares_le_length _ hb)
    exact_mod_cast hq1
  · rw [Real.sqrt_eq_zero']
    constructor
    · intro hle
      have hle' : sumSquares buf.samples / (buf.samples.length : ℚ) ≤ 0 := by
        exact_mod_cast hle
      have heq : sumSquares buf.samples / (buf.samples.length : ℚ) = 0 :=
        le_antisymm hle' hq0
      have hss : sumSquares buf.samples = 0 := by
        rcases div_eq_zero_iff.mp heq with h | h
        · exact h
        · exact absurd h (by exact_mod_cast hlen)
      exact (sumSquares_eq_zero_iff _).mp hss
    · intro hall
      have hss : sumSquares buf.samples = 0 := (sumSquares_eq_zero_iff _).mpr hall
      rw [hss]
      simp

theorem claim_C4_rms_bounds_witness :
    ∃ r : ℝ, (extractAudioFeatures ⟨[1, 0], 44100, 1⟩).rms = some r ∧
      0 ≤ r ∧ r ≤ 1 ∧ (r = 0 ↔ ∀ s ∈ [(1 : ℚ), 0], s = 0) :=
  claim_C4_rms_bounds ⟨[1, 0], 44100, 1⟩ (by decide) (by decide)

/-- Claim C9: the feature extractor is deterministic — identical buffers
(same sample data, sample rate and channel count) yield identical feature
records; the embedding contains no source of randomness. -/
theorem claim_C9_extractor_deterministic (b1 b2 : AudioBuffer) (h : b1 = b2) :
    extractAudioFeatures b1 = extractAudioFeatures b2 := by
  rw [h]

theorem claim_C9_extractor_deterministic_witness :
    extractAudioFeatures ⟨[1, 0], 44100, 1⟩ = extractAudioFeatures ⟨[1, 0], 44100, 1⟩ :=
  claim_C9_extractor_deterministic ⟨[1, 0], 44100, 1⟩ ⟨[1, 0], 44100, 1⟩ rfl
